import Mathlib

/-!
Shallow embedding of the sao-parks client map component
(`src/lib/components/Map.svelte`, forms, page handlers and server auth),
together with proofs about its filter/visibility cascade, interaction-mode
state machine, deletion cascades, contract-term formatting and the
authentication gate.

Conventions of the embedding:
* TypeScript `number | null` ids become `Option Nat`; JavaScript truthiness
  of such a value (`null` and `0` are falsy) is the function `idTruthy`.
* A facility's `parkId : number` (non-nullable in the component types, `0`
  falsy) becomes a plain `Nat` whose JS truthiness is `parkId != 0`.
* JavaScript `Set` objects holding ids are modelled as `List Nat` with
  membership via `List.contains`; `Set.add` appends, `Set.delete` filters.
* Geometry payloads are an abstract type parameter `G`; the map code only
  tests their truthiness (`Option.isSome` here) and hands them to the
  external turf collaborator, which is modelled as an abstract
  point-in-polygon predicate argument.
-/

namespace SaoParks

/-- JS truthiness of a nullable numeric id (`null` and `0` are falsy). -/
def idTruthy : Option Nat → Bool
  | none => false
  | some n => n != 0

/-- `District` entity as held by the map component (only fields the modelled
logic reads: `id`, plus geometry whose truthiness `loadDistricts` checks). -/
structure District (G : Type) where
  id : Nat
  geometry : Option G
  deriving Repr, DecidableEq

/-- `Park` entity as held by the map component: `id`, nullable `districtId`
foreign key, geometry. -/
structure Park (G : Type) where
  id : Nat
  districtId : Option Nat
  geometry : Option G
  deriving Repr, DecidableEq

/-- `Facility` entity: `id`, `type` tag, non-nullable `parkId` foreign key
(`0` is JS-falsy), optional `contractTerm` string. Coordinates are carried
opaquely and never inspected by the modelled logic, so they are omitted. -/
structure Facility where
  id : Nat
  type : String
  parkId : Nat
  contractTerm : Option String
  deriving Repr, DecidableEq

/-- The three set-valued filter selections of the map component
(`selectedDistricts`, `selectedParks`, `selectedFacilityTypes`). -/
structure FilterSel where
  districts : List Nat
  parks : List Nat
  facilityTypes : List String
  deriving Repr, DecidableEq

/-- The in-memory entity store of the page (`districts`, `parks`,
`facilities` arrays). -/
structure Store (G : Type) where
  districts : List (District G)
  parks : List (Park G)
  facilities : List Facility
  deriving Repr, DecidableEq

/-- Ids of the parks currently in the store, `parks.map((p) => p.id)`. -/
def parkIds {G : Type} (parks : List (Park G)) : List Nat :=
  parks.map (·.id)

/-- The guard `park.districtId && !selectedDistricts.has(park.districtId)`
used by `loadParks` and `deselectAllParks` (truthiness of `districtId`
included). -/
def districtHidden {G : Type} (sel : FilterSel) (p : Park G) : Bool :=
  match p.districtId with
  | none => false
  | some d => d != 0 && !(sel.districts.contains d)

/-- The guard `!park.districtId || selectedDistricts.has(park.districtId)`
used by `selectAllParks` and the `filteredParks` derived list. -/
def inSelectedDistrict {G : Type} (sel : FilterSel) (p : Park G) : Bool :=
  match p.districtId with
  | none => true
  | some d => d == 0 || sel.districts.contains d

/-- `filteredParks`: parks offered in the filter panel, those of selected
districts (or with falsy `districtId`). -/
def filteredParks {G : Type} (parks : List (Park G)) (sel : FilterSel) :
    List (Park G) :=
  parks.filter (inSelectedDistrict sel)

/-- `togglePark`: delete the id from `selectedParks` if present, else add. -/
def togglePark (id : Nat) (sel : FilterSel) : FilterSel :=
  if sel.parks.contains id then
    { sel with parks := sel.parks.filter (· != id) }
  else
    { sel with parks := sel.parks ++ [id] }

/-- `toggleDistrict`: delete the id from `selectedDistricts` if present,
else add. -/
def toggleDistrict (id : Nat) (sel : FilterSel) : FilterSel :=
  if sel.districts.contains id then
    { sel with districts := sel.districts.filter (· != id) }
  else
    { sel with districts := sel.districts ++ [id] }

/-- `toggleFacilityType`. -/
def toggleFacilityType (t : String) (sel : FilterSel) : FilterSel :=
  if sel.facilityTypes.contains t then
    { sel with facilityTypes := sel.facilityTypes.filter (· != t) }
  else
    { sel with facilityTypes := sel.facilityTypes ++ [t] }

/-- `selectAllDistricts`: `selectedDistricts = new SvelteSet(districts.map((d) => d.id))`. -/
def selectAllDistricts {G : Type} (districts : List (District G))
    (sel : FilterSel) : FilterSel :=
  { sel with districts := districts.map (·.id) }

/-- `deselectAllDistricts`: empty the set. -/
def deselectAllDistricts (sel : FilterSel) : FilterSel :=
  { sel with districts := [] }

/-- `selectAllParks`: only select parks from selected districts,
`parks.filter((park) => !park.districtId || selectedDistricts.has(park.districtId))`. -/
def selectAllParks {G : Type} (parks : List (Park G)) (sel : FilterSel) :
    FilterSel :=
  { sel with parks := (parks.filter (inSelectedDistrict sel)).map (·.id) }

/-- `deselectAllParks`: keep (select) exactly the parks from deselected
districts, `parks.filter((park) => park.districtId && !selectedDistricts.has(park.districtId))`. -/
def deselectAllParks {G : Type} (parks : List (Park G)) (sel : FilterSel) :
    FilterSel :=
  { sel with parks := (parks.filter (districtHidden sel)).map (·.id) }

/-- The fixed `FACILITY_TYPES` enumeration keys from `$lib/constants`. -/
def facilityTypeKeys : List String :=
  ["SPORTS_PLAYGROUND", "CHILD_PLAYGROUND", "NTO", "TOILET", "CHILL",
   "CHILDREN_ROOM"]

/-- `selectAllFacilityTypes`. -/
def selectAllFacilityTypes (sel : FilterSel) : FilterSel :=
  { sel with facilityTypes := facilityTypeKeys }

/-- `deselectAllFacilityTypes`. -/
def deselectAllFacilityTypes (sel : FilterSel) : FilterSel :=
  { sel with facilityTypes := [] }

/-- First run of the `filtersInitialized` effect: every current district id,
park id and facility type key is selected. -/
def initFilters {G : Type} (store : Store G) : FilterSel :=
  { districts := store.districts.map (·.id)
    parks := store.parks.map (·.id)
    facilityTypes := facilityTypeKeys }

/-- Subsequent runs of the `filtersInitialized` effect: auto-select any
store id not yet in its selected set (`forEach` + `Set.add`). -/
def autoSelectNew {G : Type} (store : Store G) (sel : FilterSel) : FilterSel :=
  { districts :=
      sel.districts ++
        ((store.districts.map (·.id)).filter (fun i => !sel.districts.contains i))
    parks :=
      sel.parks ++
        ((store.parks.map (·.id)).filter (fun i => !sel.parks.contains i))
    facilityTypes :=
      sel.facilityTypes ++
        (facilityTypeKeys.filter (fun t => !sel.facilityTypes.contains t)) }

/-- Per-park body of the `loadParks` render pass: the park's layer is added
to `drawnItems` iff none of the three guards skip it —
`!selectedParks.has(park.id)`, `park.districtId && !selectedDistricts.has(...)`,
and the `if (park.geometry)` truthiness check. -/
def parkRendered {G : Type} (sel : FilterSel) (p : Park G) : Bool :=
  sel.parks.contains p.id && !(districtHidden sel p) && p.geometry.isSome

/-- The `loadParks` pass as a whole: the list of parks for which a layer is
added (the function early-returns on an empty list, which draws nothing). -/
def loadParks {G : Type} (parks : List (Park G)) (sel : FilterSel) :
    List (Park G) :=
  if parks.isEmpty then [] else parks.filter (parkRendered sel)

/-- Per-facility body of the `loadFacilities` render pass: a marker is added
to the cluster group iff the three guards pass —
`!selectedFacilityTypes.has(facility.type)`,
`facility.parkId && !selectedParks.has(facility.parkId)`, and
`park && park.districtId && !selectedDistricts.has(park.districtId)` where
`park = parks.find((p) => p.id === facility.parkId)`. -/
def facilityRendered {G : Type} (parks : List (Park G)) (sel : FilterSel)
    (f : Facility) : Bool :=
  sel.facilityTypes.contains f.type &&
  !(f.parkId != 0 && !(sel.parks.contains f.parkId)) &&
  !(match parks.find? (fun p => p.id == f.parkId) with
    | some park => districtHidden sel park
    | none => false)

/-- The `loadFacilities` pass as a whole: the facilities for which a marker
is added (early return on an empty list draws nothing). -/
def loadFacilities {G : Type} (parks : List (Park G))
    (facilities : List Facility) (sel : FilterSel) : List Facility :=
  if facilities.isEmpty then [] else facilities.filter (facilityRendered parks sel)

/-- Well-formed park: its database-serial id is positive and, when a
`districtId` foreign key is present, it is positive too (both columns are
Postgres `serial`/`references` values, never `0`), and its non-nullable
`geometry` field is present. -/
def parkWF {G : Type} (p : Park G) : Bool :=
  p.id != 0 &&
  (match p.districtId with
   | none => true
   | some d => d != 0) &&
  p.geometry.isSome

/-- Spec-side visibility of a park (§4.1): its own id is selected AND it has
no `districtId` or its `districtId` is selected. -/
def specParkVisible {G : Type} (sel : FilterSel) (p : Park G) : Prop :=
  p.id ∈ sel.parks ∧
    (p.districtId = none ∨ ∃ d, p.districtId = some d ∧ d ∈ sel.districts)

/-- Spec-side visibility of a facility (§4.1): its type is selected AND its
park (if any — the link is the non-zero `parkId`) is visible under the
park/district cascade: the park id is selected and the linked park's
district, if any, is selected. -/
def specFacilityVisible {G : Type} (parks : List (Park G)) (sel : FilterSel)
    (f : Facility) : Prop :=
  f.type ∈ sel.facilityTypes ∧
    (f.parkId ≠ 0 →
      f.parkId ∈ sel.parks ∧
        ∀ park ∈ parks, park.id = f.parkId →
          ∀ d, park.districtId = some d → d ∈ sel.districts)

/-- `loadParks` draws exactly the parks passing the per-park filter; the
empty-list early return draws the same (nothing). -/
theorem loadParks_eq_filter {G : Type} (parks : List (Park G))
    (sel : FilterSel) : loadParks parks sel = parks.filter (parkRendered sel) := by
  cases parks <;> simp [loadParks]

/-- `loadFacilities` draws exactly the facilities passing the per-facility
filter. -/
theorem loadFacilities_eq_filter {G : Type} (parks : List (Park G))
    (facilities : List Facility) (sel : FilterSel) :
    loadFacilities parks facilities sel =
      facilities.filter (facilityRendered parks sel) := by
  cases facilities <;> simp [loadFacilities]

/-- Under well-formedness the rendering guard of `loadParks` agrees with the
spec's cascade. -/
theorem parkRendered_iff_specVisible {G : Type} (sel : FilterSel)
    (p : Park G) (hwf : parkWF p = true) :
    parkRendered sel p = true ↔ specParkVisible sel p := by
  unfold parkWF at hwf
  unfold parkRendered districtHidden specParkVisible
  cases hd : p.districtId with
  | none =>
      simp [hd] at hwf ⊢
      simp [List.elem_iff, hwf]
  | some d =>
      simp [hd] at hwf ⊢
      obtain ⟨⟨h1, h2⟩, h3⟩ := hwf
      simp [List.elem_iff, h2, h3]

/-- Under well-formedness the `selectAllParks` / `filteredParks` guard
agrees with the spec's "no district or district selected" disjunction. -/
theorem inSelectedDistrict_iff {G : Type} (sel : FilterSel) (p : Park G)
    (hwf : parkWF p = true) :
    inSelectedDistrict sel p = true ↔
      (p.districtId = none ∨ ∃ d, p.districtId = some d ∧ d ∈ sel.districts) := by
  unfold parkWF at hwf
  unfold inSelectedDistrict
  cases hd : p.districtId with
  | none => simp
  | some d =>
      simp [hd] at hwf ⊢
      simp [List.elem_iff, hwf.1.2]

/-- Under well-formedness, the negated `loadParks`/`loadFacilities` district
guard says: every present `districtId` is selected. -/
theorem not_districtHidden_iff {G : Type} (sel : FilterSel) (p : Park G)
    (hwf : parkWF p = true) :
    (!districtHidden sel p) = true ↔
      ∀ d, p.districtId = some d → d ∈ sel.districts := by
  unfold parkWF at hwf
  unfold districtHidden
  cases hd : p.districtId with
  | none => simp
  | some d =>
      simp [hd] at hwf ⊢
      simp [List.elem_iff, hwf.1.2]

/-- Under well-formedness and distinct park ids the rendering guard of
`loadFacilities` agrees with the spec's type-and-cascade condition. -/
theorem facilityRendered_iff_specVisible {G : Type} (parks : List (Park G))
    (sel : FilterSel) (f : Facility)
    (hwf : ∀ p ∈ parks, parkWF p = true)
    (hnd : (parkIds parks).Nodup) :
    facilityRendered parks sel f = true ↔ specFacilityVisible parks sel f := by
  by_cases hk : f.parkId = 0
  · have hfind : parks.find? (fun p => p.id == f.parkId) = none := by
      rw [List.find?_eq_none]
      intro p hp
      have := hwf p hp
      unfold parkWF at this
      simp at this ⊢
      omega
    have hred : facilityRendered parks sel f = sel.facilityTypes.contains f.type := by
      unfold facilityRendered
      rw [hfind]
      simp [hk]
    rw [hred]
    unfold specFacilityVisible
    simp [List.elem_iff, hk]
  · have hpid : (f.parkId != 0) = true := by simp [hk]
    cases hfind : parks.find? (fun p => p.id == f.parkId) with
    | none =>
        have hno : ∀ p ∈ parks, p.id ≠ f.parkId := by
          intro p hp
          have := List.find?_eq_none.mp hfind p hp
          simpa using this
        have hred : facilityRendered parks sel f =
            (sel.facilityTypes.contains f.type && sel.parks.contains f.parkId) := by
          unfold facilityRendered
          rw [hfind]
          simp [hpid]
        rw [hred]
        unfold specFacilityVisible
        simp only [Bool.and_eq_true, List.elem_iff]
        constructor
        · rintro ⟨ht, hp⟩
          exact ⟨ht, fun _ => ⟨hp, fun park hpark hid => absurd hid (hno park hpark)⟩⟩
        · rintro ⟨ht, hrest⟩
          exact ⟨ht, (hrest hk).1⟩
    | some q =>
        have hq : q ∈ parks := List.mem_of_find?_eq_some hfind
        have hqid : q.id = f.parkId := by
          have := List.find?_some hfind
          simpa using this
        have huniq : ∀ park ∈ parks, park.id = f.parkId → park = q := by
          intro park hpark hid
          exact List.inj_on_of_nodup_map hnd hpark hq (by rw [hid, hqid])
        have hred : facilityRendered parks sel f =
            (sel.facilityTypes.contains f.type && sel.parks.contains f.parkId &&
              !districtHidden sel q) := by
          unfold facilityRendered
          rw [hfind]
          simp [hpid]
        rw [hred]
        unfold specFacilityVisible
        simp only [Bool.and_eq_true, List.elem_iff, Bool.not_eq_true']
        constructor
        · rintro ⟨⟨ht, hsel⟩, hguard⟩
          refine ⟨ht, fun _ => ⟨hsel, ?_⟩⟩
          intro park hpark hid d hd
          obtain rfl := huniq park hpark hid
          exact (not_districtHidden_iff sel park (hwf park hpark)).mp
            (by simp [hguard]) d hd
        · rintro ⟨ht, hrest⟩
          obtain ⟨hsel, hdist⟩ := hrest hk
          have hg := (not_districtHidden_iff sel q (hwf q hq)).mpr
            (fun d hd => hdist q hq hqid d hd)
          exact ⟨⟨ht, hsel⟩, by simpa using hg⟩

/-- C1: the code's `deselectAllParks` rebuilds `selectedParks` as the full
id set of the parks under deselected districts, so a park that was
explicitly deselected before its district was deselected is re-added; after
`selectAllDistricts` it renders again — the scoping invariant of §4.1/§8 is
violated. Concretely: park 1 lies in district 1; both start deselected
(`sel0`), `deselectAllParks` puts park 1 back into the selected set, and
after `selectAllDistricts` the park is rendered (resurrected). -/
theorem deselectAllParks_resurrects_deselected_park :
    ((⟨[], [], facilityTypeKeys⟩ : FilterSel).parks.contains 1 = false) ∧
    ((deselectAllParks [(⟨1, some 1, some ()⟩ : Park Unit)]
        ⟨[], [], facilityTypeKeys⟩).parks.contains 1 = true) ∧
    (parkRendered
        (selectAllDistricts [(⟨1, some ()⟩ : District Unit)]
          (deselectAllParks [(⟨1, some 1, some ()⟩ : Park Unit)]
            ⟨[], [], facilityTypeKeys⟩))
        (⟨1, some 1, some ()⟩ : Park Unit) = true) := by
  decide

/-- C2: for every well-formed park in the entity store and every filter
state, the `loadParks` pass draws a layer for the park iff the park's id is
in `selectedParks` and (it has no `districtId` or its `districtId` is in
`selectedDistricts`). -/
theorem loadParks_draws_iff_cascade {G : Type} (parks : List (Park G))
    (sel : FilterSel) (p : Park G) (hp : p ∈ parks)
    (hwf : parkWF p = true) :
    p ∈ loadParks parks sel ↔ specParkVisible sel p := by
  rw [loadParks_eq_filter, List.mem_filter]
  constructor
  · rintro ⟨-, hr⟩
    exact (parkRendered_iff_specVisible sel p hwf).mp hr
  · intro hs
    exact ⟨hp, (parkRendered_iff_specVisible sel p hwf).mpr hs⟩

/-- Witness for C2 at a concrete store: park 1 in district 2, both
selected. -/
theorem loadParks_draws_iff_cascade_witness :
    specParkVisible ⟨[2], [1], []⟩ (⟨1, some 2, some ()⟩ : Park Unit) :=
  (loadParks_draws_iff_cascade [(⟨1, some 2, some ()⟩ : Park Unit)]
    ⟨[2], [1], []⟩ ⟨1, some 2, some ()⟩ (by decide) (by decide)).mp (by decide)

/-- C3: for every facility in the entity store and every filter state, the
`loadFacilities` pass adds a marker for the facility iff the facility's
type is selected and its park (if any) is visible under the park/district
cascade (park id selected, linked park's district, if any, selected);
stated for a well-formed store (positive serial ids, distinct park ids,
geometry present). -/
theorem loadFacilities_draws_iff_cascade {G : Type} (parks : List (Park G))
    (facilities : List Facility) (sel : FilterSel) (f : Facility)
    (hf : f ∈ facilities)
    (hwf : ∀ p ∈ parks, parkWF p = true)
    (hnd : (parkIds parks).Nodup) :
    f ∈ loadFacilities parks facilities sel ↔
      specFacilityVisible parks sel f := by
  rw [loadFacilities_eq_filter, List.mem_filter]
  constructor
  · rintro ⟨-, hr⟩
    exact (facilityRendered_iff_specVisible parks sel f hwf hnd).mp hr
  · intro hs
    exact ⟨hf, (facilityRendered_iff_specVisible parks sel f hwf hnd).mpr hs⟩

/-- Witness for C3 at a concrete store: a TOILET facility in park 1 of
district 2, everything selected. -/
theorem loadFacilities_draws_iff_cascade_witness :
    specFacilityVisible [(⟨1, some 2, some ()⟩ : Park Unit)]
      ⟨[2], [1], ["TOILET"]⟩ ⟨10, "TOILET", 1, none⟩ :=
  (loadFacilities_draws_iff_cascade [(⟨1, some 2, some ()⟩ : Park Unit)]
    [⟨10, "TOILET", 1, none⟩] ⟨[2], [1], ["TOILET"]⟩ ⟨10, "TOILET", 1, none⟩
    (by decide) (by decide) (by decide)).mp (by decide)

/-- C8: `selectAllParks` is scoped to the district filter: afterwards the
selected-parks set holds exactly the ids of parks that have no `districtId`
or whose `districtId` is currently selected; parks under deselected
districts are not added. -/
theorem selectAllParks_scoped_to_districts {G : Type} (parks : List (Park G))
    (sel : FilterSel) (hwf : ∀ p ∈ parks, parkWF p = true) (k : Nat) :
    k ∈ (selectAllParks parks sel).parks ↔
      ∃ p ∈ parks, p.id = k ∧
        (p.districtId = none ∨ ∃ d, p.districtId = some d ∧ d ∈ sel.districts) := by
  unfold selectAllParks
  simp only [List.mem_map, List.mem_filter]
  constructor
  · rintro ⟨p, ⟨hp, hsel⟩, rfl⟩
    exact ⟨p, hp, rfl, (inSelectedDistrict_iff sel p (hwf p hp)).mp hsel⟩
  · rintro ⟨p, hp, rfl, hdisj⟩
    exact ⟨p, ⟨hp, (inSelectedDistrict_iff sel p (hwf p hp)).mpr hdisj⟩, rfl⟩

/-- Witness for C8: park 1 has no district, park 2 lies in deselected
district 9; after `selectAllParks` id 1 is selected. -/
theorem selectAllParks_scoped_to_districts_witness :
    ∃ p ∈ [(⟨1, none, some ()⟩ : Park Unit), ⟨2, some 9, some ()⟩],
      p.id = 1 ∧
        (p.districtId = none ∨
          ∃ d, p.districtId = some d ∧ d ∈ ([] : List Nat)) :=
  (selectAllParks_scoped_to_districts
    [(⟨1, none, some ()⟩ : Park Unit), ⟨2, some 9, some ()⟩]
    ⟨[], [], []⟩ (by decide) 1).mp (by decide)

/-- `handleParkDelete` success branch of the page component:
`parks = parks.filter((p) => p.id !== parkId)` and
`facilities = facilities.filter((f) => f.parkId !== parkId)`. -/
def handleParkDelete {G : Type} (s : Store G) (pid : Nat) : Store G :=
  { s with
    parks := s.parks.filter (fun p => p.id != pid)
    facilities := s.facilities.filter (fun f => f.parkId != pid) }

/-- `handleDistrictDelete` success branch of the page component:
`districts = districts.filter((d) => d.id !== districtId)`; parks and
facilities are untouched. -/
def handleDistrictDelete {G : Type} (s : Store G) (did : Nat) : Store G :=
  { s with districts := s.districts.filter (fun d => d.id != did) }

/-- C7: a successful park deletion removes from local state exactly that
park and every facility whose `parkId` equals it, leaving districts and the
facilities of other parks untouched; a successful district deletion removes
only that district, leaving the parks list (including parks with that
`districtId`) and the facilities list unchanged. -/
theorem delete_cascades_local_state {G : Type} (s : Store G) (pid did : Nat) :
    (∀ p : Park G,
      p ∈ (handleParkDelete s pid).parks ↔ p ∈ s.parks ∧ p.id ≠ pid) ∧
    (∀ f : Facility,
      f ∈ (handleParkDelete s pid).facilities ↔
        f ∈ s.facilities ∧ f.parkId ≠ pid) ∧
    (handleParkDelete s pid).districts = s.districts ∧
    (∀ d : District G,
      d ∈ (handleDistrictDelete s did).districts ↔
        d ∈ s.districts ∧ d.id ≠ did) ∧
    (handleDistrictDelete s did).parks = s.parks ∧
    (handleDistrictDelete s did).facilities = s.facilities := by
  refine ⟨fun p => ?_, fun f => ?_, rfl, fun d => ?_, rfl, rfl⟩ <;>
    simp [handleParkDelete, handleDistrictDelete, List.mem_filter]

/-- The server-side session cookie name (`auth.ts`). -/
def sessionCookieName : String := "admin_session"

/-- `cookies.get(name)`: the value of the first cookie with that name. -/
def cookiesGet (jar : List (String × String)) (name : String) :
    Option String :=
  (jar.find? (fun c => c.1 == name)).map (·.2)

/-- `cookies.set(name, value)`: the new binding shadows any old one. -/
def cookiesSet (jar : List (String × String)) (name value : String) :
    List (String × String) :=
  (name, value) :: jar

/-- `createSession`: stores a token under `admin_session`; the token's
value is arbitrary (a random UUID in the code) and is recorded nowhere
else. -/
def createSession (jar : List (String × String)) (token : String) :
    List (String × String) :=
  cookiesSet jar sessionCookieName token

/-- `isAuthenticated(cookies)`: `!!cookies.get('admin_session')` — JS
truthiness of the string value (absent and empty are falsy). -/
def isAuthenticated (jar : List (String × String)) : Bool :=
  match cookiesGet jar sessionCookieName with
  | none => false
  | some v => v != ""

/-- C10: the gate returns true iff the `admin_session` cookie is present
with a non-empty value, and any non-empty value passes — the value is a
function of the cookie jar alone, never compared against a stored token. -/
theorem isAuthenticated_iff_cookie_present :
    (∀ jar : List (String × String),
      isAuthenticated jar = true ↔
        ∃ v, cookiesGet jar sessionCookieName = some v ∧ v ≠ "") ∧
    (∀ (jar : List (String × String)) (v : String), v ≠ "" →
      isAuthenticated (cookiesSet jar sessionCookieName v) = true) := by
  constructor
  · intro jar
    unfold isAuthenticated
    cases h : cookiesGet jar sessionCookieName with
    | none => simp [h]
    | some v => simp [h]
  · intro jar v hv
    unfold isAuthenticated cookiesGet cookiesSet
    simp [List.find?, hv]

/-- Witness for C10: an arbitrary non-empty value (never issued by
`createSession`) passes the gate. -/
theorem isAuthenticated_iff_cookie_present_witness :
    isAuthenticated (cookiesSet [] sessionCookieName "forged") = true :=
  isAuthenticated_iff_cookie_present.2 [] "forged" (by decide)

/-- Interaction-mode state of the map component: the three mode flags, the
`activeDrawHandler` (modelled by its non-nullness) and the one-shot
`map.once('click')` listener attached by `startPlacingFacility`. -/
structure ModeState where
  isDrawingDistrict : Bool
  isDrawingPark : Bool
  isPlacingFacility : Bool
  handlerActive : Bool
  clickListener : Bool
  deriving Repr, DecidableEq

/-- Inputs to the mode controller: the three start buttons, the cancel
button, a `L.Draw.Event.CREATED` polygon completion (carrying its
geometry), and the one-shot map click (carrying coordinates; modelled as
integers since only identity matters). -/
inductive ModeAction where
  | startDrawingDistrict
  | startDrawingPark
  | startPlacingFacility
  | cancelAllModes
  | drawCreated (g : Nat)
  | mapClick (lat lng : Int)

/-- Creation callbacks the component can emit (`onDistrictCreate`,
`onParkCreate`, `onFacilityCreate`). -/
inductive MapEvent where
  | districtCreate (g : Nat)
  | parkCreate (g : Nat)
  | facilityCreate (lat lng : Int)
  deriving Repr, DecidableEq

/-- `cancelAllModes`: disables the active draw handler, removes the click
listener, resets all three flags (the DOM-artifact scan only removes
transient visuals and is not part of the state). -/
def cancelAllModes (_ : ModeState) : ModeState :=
  { isDrawingDistrict := false, isDrawingPark := false,
    isPlacingFacility := false, handlerActive := false,
    clickListener := false }

/-- One step of the mode controller. `startDrawingDistrict` /
`startDrawingPark` / `startPlacingFacility` first run `cancelAllModes`,
then set their own flag and attach their interaction; the `CREATED`
listener routes by the flags exactly as in `setupDrawControls` (district
branch first, then park, else nothing); the one-shot click fires only while
attached. Besides the next state, the step returns the creation event
emitted, if any. -/
def stepMode (s : ModeState) : ModeAction → ModeState × Option MapEvent
  | .startDrawingDistrict =>
      ({ cancelAllModes s with isDrawingDistrict := true, handlerActive := true }, none)
  | .startDrawingPark =>
      ({ cancelAllModes s with isDrawingPark := true, handlerActive := true }, none)
  | .startPlacingFacility =>
      ({ cancelAllModes s with isPlacingFacility := true, clickListener := true }, none)
  | .cancelAllModes => (cancelAllModes s, none)
  | .drawCreated g =>
      if s.isDrawingDistrict then
        ({ s with isDrawingDistrict := false, handlerActive := false },
         some (.districtCreate g))
      else if s.isDrawingPark then
        ({ s with isDrawingPark := false, handlerActive := false },
         some (.parkCreate g))
      else (s, none)
  | .mapClick lat lng =>
      if s.clickListener then
        ({ s with isPlacingFacility := false, handlerActive := false, clickListener := false }, some (.facilityCreate lat lng))
      else (s, none)

/-- Initial component state: all flags false, no handler, no listener. -/
def initMode : ModeState :=
  { isDrawingDistrict := false, isDrawingPark := false,
    isPlacingFacility := false, handlerActive := false,
    clickListener := false }

/-- States the mode controller can reach from its initial state. -/
inductive ModeReachable : ModeState → Prop
  | init : ModeReachable initMode
  | step (s : ModeState) (a : ModeAction) :
      ModeReachable s → ModeReachable (stepMode s a).1

/-- At most one of the three mode flags is set. -/
def atMostOneMode (s : ModeState) : Bool :=
  !(s.isDrawingDistrict && s.isDrawingPark) &&
  !(s.isDrawingDistrict && s.isPlacingFacility) &&
  !(s.isDrawingPark && s.isPlacingFacility)

/-- Every step preserves mutual exclusion of the mode flags. -/
theorem atMostOneMode_step (s : ModeState) (a : ModeAction)
    (h : atMostOneMode s = true) : atMostOneMode (stepMode s a).1 = true := by
  cases s with
  | mk dd dp pf ha cl =>
      cases a <;> simp [stepMode, cancelAllModes, atMostOneMode] <;>
        (try split) <;> (try split) <;> simp_all [atMostOneMode]

/-- C4: in every reachable mode state at most one mode flag is set; each
start action emits no creation event and leaves exactly its own flag set
(the previously active mode is cancelled); and after starting
`drawing-park`, a completing polygon draw can never emit a
district-creation event for the discarded district draw. -/
theorem mode_transitions_exclusive (s : ModeState) (hs : ModeReachable s) :
    atMostOneMode s = true ∧
    (stepMode s .startDrawingDistrict).2 = none ∧
    (stepMode s .startDrawingPark).2 = none ∧
    (stepMode s .startPlacingFacility).2 = none ∧
    ((stepMode s .startDrawingDistrict).1.isDrawingDistrict = true ∧
      (stepMode s .startDrawingDistrict).1.isDrawingPark = false ∧
      (stepMode s .startDrawingDistrict).1.isPlacingFacility = false) ∧
    ((stepMode s .startDrawingPark).1.isDrawingPark = true ∧
      (stepMode s .startDrawingPark).1.isDrawingDistrict = false ∧
      (stepMode s .startDrawingPark).1.isPlacingFacility = false) ∧
    ((stepMode s .startPlacingFacility).1.isPlacingFacility = true ∧
      (stepMode s .startPlacingFacility).1.isDrawingDistrict = false ∧
      (stepMode s .startPlacingFacility).1.isDrawingPark = false) ∧
    (∀ g g', (stepMode (stepMode s .startDrawingPark).1 (.drawCreated g)).2 ≠
      some (.districtCreate g')) := by
  have hinv : atMostOneMode s = true := by
    induction hs with
    | init => decide
    | step s' a _ ih => exact atMostOneMode_step s' a ih
  refine ⟨hinv, rfl, rfl, rfl, ?_, ?_, ?_, ?_⟩ <;>
    cases s with
    | mk dd dp pf ha cl => simp [stepMode, cancelAllModes]

/-- Witness for C4 at the initial state. -/
theorem mode_transitions_exclusive_witness : atMostOneMode initMode = true :=
  (mode_transitions_exclusive initMode ModeReachable.init).1

/-- The body of the `detectedPark` loop for one park: containment of the
placement point in the park's polygon, as answered by the external turf
collaborator `pip`; a missing geometry, or one on which turf throws
(modelled by `pip` answering `false`), is skipped. -/
def parkContains {P G : Type} (pip : P → G → Bool) (pt : P)
    (park : Park G) : Bool :=
  match park.geometry with
  | some g => pip pt g
  | none => false

/-- `detectedPark` of the facility form: the first park in list order whose
polygon contains the placement point. -/
def detectedPark {P G : Type} (pip : P → G → Bool) (pt : P)
    (parks : List (Park G)) : Option (Park G) :=
  parks.find? (parkContains pip pt)

/-- The `$effect` that maintains the form's `parkId` string (modelled as
`Option Nat`, `none` being the empty string): in edit mode a truthy
`facility.parkId` wins; in create mode a detected park fills an empty
`parkId`; otherwise the manual selection is kept. -/
def updateParkId {G : Type} (isEditMode : Bool) (facilityParkId : Option Nat)
    (detected : Option (Park G)) (parkId : Option Nat) : Option Nat :=
  if isEditMode && idTruthy facilityParkId then facilityParkId
  else if !isEditMode && detected.isSome && parkId.isNone then
    detected.map (·.id)
  else parkId

/-- Outcome of the facility form's `handleSubmit` validation prologue. -/
inductive SubmitResult where
  | errorNameRequired
  | errorParkRequired
  | requestSent (parkId : Nat)
  deriving Repr, DecidableEq

/-- `handleSubmit` of the facility form: empty name errors out, empty
`parkId` errors out (`'Park selection is required'`) before any request;
otherwise the request is sent with the parsed `parkId`. -/
def handleSubmit (name : String) (parkId : Option Nat) : SubmitResult :=
  if name = "" then .errorNameRequired
  else
    match parkId with
    | none => .errorParkRequired
    | some k => .requestSent k

/-- `find?` returns the unique element satisfying the predicate. -/
theorem find?_eq_of_unique {α : Type} (l : List α) (p : α → Bool) (a : α)
    (ha : a ∈ l) (hpa : p a = true)
    (huniq : ∀ b ∈ l, p b = true → b = a) :
    l.find? p = some a := by
  induction l with
  | nil => cases ha
  | cons x xs ih =>
      cases hx : p x with
      | false =>
          rcases List.mem_cons.mp ha with rfl | ha'
          · rw [hx] at hpa
            cases hpa
          · rw [List.find?_cons, hx]
            exact ih ha' fun b hb hpb =>
              huniq b (List.mem_cons_of_mem _ hb) hpb
      | true =>
          obtain rfl := huniq x (List.mem_cons_self x xs) hx
          rw [List.find?_cons, hx]

/-- C5: in facility create mode (`isEditMode = false`, no facility, empty
`parkId`), a placement point contained in exactly one park polygon
auto-sets `parkId` to that park's id; a placement point contained in no
park polygon leaves `parkId` empty, and submission with an empty `parkId`
is rejected with an error — no request is sent — until a park is chosen
manually. -/
theorem facility_autodetect_and_submit_guard {P G : Type}
    (pip : P → G → Bool) (pt : P) (parks : List (Park G)) (name : String) :
    (∀ park ∈ parks, parkContains pip pt park = true →
      (∀ q ∈ parks, parkContains pip pt q = true → q = park) →
      updateParkId false none (detectedPark pip pt parks) none =
        some park.id) ∧
    ((∀ q ∈ parks, parkContains pip pt q = false) →
      updateParkId false none (detectedPark pip pt parks) none = none ∧
      ∀ k, handleSubmit name none ≠ .requestSent k) := by
  constructor
  · intro park hpark hcont huniq
    have hfind : detectedPark pip pt parks = some park :=
      find?_eq_of_unique parks (parkContains pip pt) park hpark hcont huniq
    simp [updateParkId, hfind]
  · intro hnone
    have hfind : detectedPark pip pt parks = none := by
      unfold detectedPark
      rw [List.find?_eq_none]
      intro q hq
      simp [hnone q hq]
    refine ⟨by simp [updateParkId, hfind], fun k => ?_⟩
    unfold handleSubmit
    split <;> simp

/-- Witness for C5: a point inside the single park auto-fills its id; a
point outside every park leaves the selection empty. -/
theorem facility_autodetect_and_submit_guard_witness :
    updateParkId false none
      (detectedPark (fun (pt g : Nat) => pt == g) 5
        [(⟨1, none, some 5⟩ : Park Nat)]) none = some 1 ∧
    updateParkId false none
      (detectedPark (fun (pt g : Nat) => pt == g) 7
        [(⟨1, none, some 5⟩ : Park Nat)]) none = none :=
  ⟨(facility_autodetect_and_submit_guard (fun (pt g : Nat) => pt == g) 5
      [(⟨1, none, some 5⟩ : Park Nat)] "kiosk").1
      ⟨1, none, some 5⟩ (by decide) (by decide) (by decide),
   ((facility_autodetect_and_submit_guard (fun (pt g : Nat) => pt == g) 7
      [(⟨1, none, some 5⟩ : Park Nat)] "kiosk").2 (by decide)).1⟩

/-- Head-match of one literal character; returns the remainder. -/
def expectChar (c : Char) : List Char → Option (List Char)
  | x :: rest => if x == c then some rest else none
  | [] => none

/-- One date of the regex, `\\d{4}-\\d{2}-\\d{2}`: exactly ten characters
in digit/dash shape. -/
def dateShape : List Char → Bool
  | [a, b, c, d, e, f, g, h, i, j] =>
      a.isDigit && b.isDigit && c.isDigit && d.isDigit && e == '-' &&
      f.isDigit && g.isDigit && h == '-' && i.isDigit && j.isDigit
  | _ => false

/-- Match `\\d{4}-\\d{2}-\\d{2}` at the head, returning the ten matched
characters and the remainder. -/
def matchDate : List Char → Option (List Char × List Char)
  | a :: b :: c :: d :: e :: f :: g :: h :: i :: j :: rest =>
      if dateShape [a, b, c, d, e, f, g, h, i, j] then
        some ([a, b, c, d, e, f, g, h, i, j], rest)
      else none
  | _ => none

/-- Match the regex `\\[(\\d{4}-\\d{2}-\\d{2}),(\\d{4}-\\d{2}-\\d{2})\\)` of
`loadFacilities` at the head of the list, returning the two capture
groups. -/
def matchIntervalAt (l : List Char) : Option (List Char × List Char) := do
  let rest ← expectChar '[' l
  let (d1, rest1) ← matchDate rest
  let rest2 ← expectChar ',' rest1
  let (d2, rest3) ← matchDate rest2
  let _ ← expectChar ')' rest3
  pure (d1, d2)

/-- JS `String.prototype.match` with the unanchored regex above: try the
pattern at each position, leftmost occurrence wins. -/
def searchInterval : List Char → Option (List Char × List Char)
  | [] => none
  | c :: rest =>
      match matchIntervalAt (c :: rest) with
      | some r => some r
      | none => searchInterval rest

/-- The contract-term formatting step of `loadFacilities`: a truthy
`facility.contractTerm` is searched for the interval pattern; on a match
the two captured dates make the popup's formatted date line (their
localization is outside the model), otherwise `formattedContractTerm`
stays empty and the popup has no date line. -/
def formattedContractTerm (f : Facility) : Option (List Char × List Char) :=
  match f.contractTerm with
  | none => none
  | some s => if s = "" then none else searchInterval s.data

/-- Declarative reading of the half-open-interval string format: somewhere
in the list an occurrence `[d1,d2)` with both dates in `YYYY-MM-DD`
shape. -/
def ContainsInterval (l : List Char) : Prop :=
  ∃ pre d1 d2 post,
    l = pre ++ '[' :: (d1 ++ ',' :: (d2 ++ ')' :: post)) ∧
      dateShape d1 = true ∧ dateShape d2 = true

theorem expectChar_eq_some (c : Char) (l rest : List Char) :
    expectChar c l = some rest ↔ l = c :: rest := by
  cases l with
  | nil => simp [expectChar]
  | cons x xs =>
      unfold expectChar
      by_cases hx : x = c
      · simp [hx]
      · simp [hx, Ne.symm hx]

theorem matchDate_eq_some (l d rest : List Char)
    (h : matchDate l = some (d, rest)) :
    l = d ++ rest ∧ dateShape d = true := by
  unfold matchDate at h
  split at h
  · split at h
    · rename_i hshape
      simp only [Option.some.injEq, Prod.mk.injEq] at h
      obtain ⟨rfl, rfl⟩ := h
      exact ⟨by simp, hshape⟩
    · cases h
  · cases h

theorem matchDate_of_shape (d rest : List Char) (hd : dateShape d = true) :
    matchDate (d ++ rest) = some (d, rest) := by
  have h10 : ∃ a b c d4 e5 f6 g7 h8 i9 j10,
      d = [a, b, c, d4, e5, f6, g7, h8, i9, j10] := by
    rcases d with _ | ⟨a, _ | ⟨b, _ | ⟨c, _ | ⟨d4, _ | ⟨e5, _ | ⟨f6, _ | ⟨g7, _ | ⟨h8, _ | ⟨i9, _ | ⟨j10, _ | ⟨k, t⟩⟩⟩⟩⟩⟩⟩⟩⟩⟩⟩
    all_goals first
      | exact ⟨_, _, _, _, _, _, _, _, _, _, rfl⟩
      | simp [dateShape] at hd
  obtain ⟨a, b, c, d4, e5, f6, g7, h8, i9, j10, rfl⟩ := h10
  simp [matchDate, hd]

theorem matchIntervalAt_eq_some (l d1 d2 : List Char)
    (h : matchIntervalAt l = some (d1, d2)) :
    ∃ post, l = '[' :: (d1 ++ ',' :: (d2 ++ ')' :: post)) ∧
      dateShape d1 = true ∧ dateShape d2 = true := by
  unfold matchIntervalAt at h
  simp only [bind, Option.bind_eq_some, pure, Option.some.injEq,
    Prod.mk.injEq, Prod.exists] at h
  obtain ⟨rest, hrest, e1, r1, hd1, rest2, hrest2, e2, r3, hd2, rpar,
    hrpar, h1, h2⟩ := h
  obtain ⟨hl1, hs1⟩ := matchDate_eq_some _ _ _ hd1
  obtain ⟨hl2, hs2⟩ := matchDate_eq_some _ _ _ hd2
  rw [expectChar_eq_some] at hrest hrest2 hrpar
  subst h1 h2
  refine ⟨rpar, ?_, hs1, hs2⟩
  rw [hrest, hl1, hrest2, hl2, hrpar]

theorem matchIntervalAt_of_occurrence (d1 d2 post : List Char)
    (h1 : dateShape d1 = true) (h2 : dateShape d2 = true) :
    matchIntervalAt ('[' :: (d1 ++ ',' :: (d2 ++ ')' :: post))) =
      some (d1, d2) := by
  have e1 : expectChar '[' ('[' :: (d1 ++ ',' :: (d2 ++ ')' :: post))) =
      some (d1 ++ ',' :: (d2 ++ ')' :: post)) :=
    (expectChar_eq_some _ _ _).mpr rfl
  have e2 : expectChar ',' (',' :: (d2 ++ ')' :: post)) =
      some (d2 ++ ')' :: post) :=
    (expectChar_eq_some _ _ _).mpr rfl
  have e3 : expectChar ')' (')' :: post) = some post :=
    (expectChar_eq_some _ _ _).mpr rfl
  unfold matchIntervalAt
  rw [e1]
  simp only [Option.bind_eq_bind, Option.some_bind]
  rw [matchDate_of_shape d1 _ h1]
  simp only [Option.some_bind]
  rw [e2]
  simp only [Option.some_bind]
  rw [matchDate_of_shape d2 _ h2]
  simp only [Option.some_bind]
  rw [e3]
  simp only [Option.some_bind]
  rfl

theorem searchInterval_shapes (l d1 d2 : List Char)
    (h : searchInterval l = some (d1, d2)) :
    dateShape d1 = true ∧ dateShape d2 = true := by
  induction l with
  | nil => cases h
  | cons c rest ih =>
      unfold searchInterval at h
      cases hm : matchIntervalAt (c :: rest) with
      | some r =>
          rw [hm] at h
          obtain ⟨d1', d2'⟩ := r
          simp only [Option.some.injEq, Prod.mk.injEq] at h
          obtain ⟨rfl, rfl⟩ := h
          obtain ⟨-, -, hs1, hs2⟩ := matchIntervalAt_eq_some _ _ _ hm
          exact ⟨hs1, hs2⟩
      | none =>
          rw [hm] at h
          exact ih h

theorem searchInterval_isSome_iff (l : List Char) :
    (searchInterval l).isSome = true ↔ ContainsInterval l := by
  constructor
  · intro h
    induction l with
    | nil => simp [searchInterval] at h
    | cons c rest ih =>
        unfold searchInterval at h
        cases hm : matchIntervalAt (c :: rest) with
        | some r =>
            obtain ⟨d1, d2⟩ := r
            obtain ⟨post, hocc, hs1, hs2⟩ := matchIntervalAt_eq_some _ _ _ hm
            exact ⟨[], d1, d2, post, by simpa using hocc, hs1, hs2⟩
        | none =>
            rw [hm] at h
            obtain ⟨pre, d1, d2, post, hocc, hs1, hs2⟩ := ih h
            exact ⟨c :: pre, d1, d2, post, by simp [hocc], hs1, hs2⟩
  · rintro ⟨pre, d1, d2, post, hocc, hs1, hs2⟩
    subst hocc
    induction pre with
    | nil =>
        rw [show ([] : List Char) ++ '[' :: (d1 ++ ',' :: (d2 ++ ')' :: post)) =
          '[' :: (d1 ++ ',' :: (d2 ++ ')' :: post)) by simp]
        unfold searchInterval
        rw [matchIntervalAt_of_occurrence d1 d2 post hs1 hs2]
        rfl
    | cons c pre ih =>
        rw [List.cons_append]
        unfold searchInterval
        cases hm : matchIntervalAt
            (c :: (pre ++ '[' :: (d1 ++ ',' :: (d2 ++ ')' :: post)))) with
        | some r => rfl
        | none => exact ih

/-- C6: a facility popup carries a formatted start/end date line iff the
facility has a non-empty `contractTerm` in which the half-open-interval
pattern `[YYYY-MM-DD,YYYY-MM-DD)` occurs; the line's two dates are parsed
from that bracketed format (they are exactly the two `YYYY-MM-DD` capture
groups), and a `contractTerm` not containing the format produces no date
line. -/
theorem contract_date_line_iff (f : Facility) :
    ((formattedContractTerm f).isSome = true ↔
      ∃ s, f.contractTerm = some s ∧ s ≠ "" ∧ ContainsInterval s.data) ∧
    (∀ d1 d2, formattedContractTerm f = some (d1, d2) →
      dateShape d1 = true ∧ dateShape d2 = true) := by
  cases hct : f.contractTerm with
  | none =>
      have hform : formattedContractTerm f = none := by
        simp [formattedContractTerm, hct]
      rw [hform]
      simp
  | some s =>
      by_cases hs : s = ""
      · have hform : formattedContractTerm f = none := by
          simp [formattedContractTerm, hct, hs]
        rw [hform]
        simp [hs]
      · have hform : formattedContractTerm f = searchInterval s.data := by
          simp [formattedContractTerm, hct, hs]
        rw [hform]
        constructor
        · rw [searchInterval_isSome_iff]
          constructor
          · intro h
            exact ⟨s, rfl, hs, h⟩
          · rintro ⟨s', hs', -, h⟩
            obtain rfl : s = s' := by injection hs'
            exact h
        · intro d1 d2 h
          exact searchInterval_shapes _ _ _ h

/-- Witness for C6 at a concrete contract term in the transmitted
format. -/
theorem contract_date_line_iff_witness :
    (formattedContractTerm
      ⟨1, "NTO", 1, some "[2024-01-01,2024-12-31)"⟩).isSome = true :=
  (contract_date_line_iff ⟨1, "NTO", 1, some "[2024-01-01,2024-12-31)"⟩).1.mpr
    ⟨"[2024-01-01,2024-12-31)", rfl, by decide,
      ⟨[], "2024-01-01".data, "2024-12-31".data, [], by decide, by decide,
        by decide⟩⟩

/-- `handleDistrictSubmit` of the page: edit replaces the district with the
matching id, create appends the new district. -/
def handleDistrictSubmit {G : Type} (s : Store G) (isEdit : Bool)
    (d : District G) : Store G :=
  if isEdit then
    { s with districts := s.districts.map (fun x => if x.id == d.id then d else x) }
  else
    { s with districts := s.districts ++ [d] }

/-- `handleParkSubmit` of the page: edit replaces the park with the
matching id, create appends the new park. -/
def handleParkSubmit {G : Type} (s : Store G) (isEdit : Bool)
    (p : Park G) : Store G :=
  if isEdit then
    { s with parks := s.parks.map (fun x => if x.id == p.id then p else x) }
  else
    { s with parks := s.parks ++ [p] }

/-- `handleFacilitySubmit` of the page: edit replaces the facility with the
matching id, create appends the new facility. -/
def handleFacilitySubmit {G : Type} (s : Store G) (isEdit : Bool)
    (f : Facility) : Store G :=
  if isEdit then
    { s with facilities := s.facilities.map (fun x => if x.id == f.id then f else x) }
  else
    { s with facilities := s.facilities ++ [f] }

/-- `handleFacilityDelete` success branch of the page:
`facilities = facilities.filter((f) => f.id !== facilityId)`. -/
def handleFacilityDelete {G : Type} (s : Store G) (fid : Nat) : Store G :=
  { s with facilities := s.facilities.filter (fun f => f.id != fid) }

/-- Full client-side state of the map page: entity store plus filter
selections. -/
structure ClientState (G : Type) where
  store : Store G
  sel : FilterSel

/-- State right after mount: the three lists as fetched (arbitrary server
responses; a failed fetch leaves a list empty) and the first run of the
`filtersInitialized` effect. -/
def initClient {G : Type} (store : Store G) : ClientState G :=
  { store := store, sel := initFilters store }

/-- One user/UI step of the client after initialization. Side conditions
record which inputs the UI can produce: a park filter checkbox exists only
for a park in the store (`filteredParks` is a sublist of `parks`); a
facility submitted by the form carries a `parkId` chosen from the parks
select (create), or kept from the edited facility itself (edit). -/
inductive ClientStep (G : Type) : ClientState G → ClientState G → Prop
  | toggleDistrictStep (s : ClientState G) (id : Nat) :
      ClientStep G s { s with sel := toggleDistrict id s.sel }
  | toggleParkStep (s : ClientState G) (id : Nat)
      (h : id ∈ parkIds s.store.parks) :
      ClientStep G s { s with sel := togglePark id s.sel }
  | toggleFacilityTypeStep (s : ClientState G) (t : String) :
      ClientStep G s { s with sel := toggleFacilityType t s.sel }
  | selectAllDistrictsStep (s : ClientState G) :
      ClientStep G s { s with sel := selectAllDistricts s.store.districts s.sel }
  | deselectAllDistrictsStep (s : ClientState G) :
      ClientStep G s { s with sel := deselectAllDistricts s.sel }
  | selectAllParksStep (s : ClientState G) :
      ClientStep G s { s with sel := selectAllParks s.store.parks s.sel }
  | deselectAllParksStep (s : ClientState G) :
      ClientStep G s { s with sel := deselectAllParks s.store.parks s.sel }
  | selectAllFacilityTypesStep (s : ClientState G) :
      ClientStep G s { s with sel := selectAllFacilityTypes s.sel }
  | deselectAllFacilityTypesStep (s : ClientState G) :
      ClientStep G s { s with sel := deselectAllFacilityTypes s.sel }
  | autoSelectStep (s : ClientState G) :
      ClientStep G s { s with sel := autoSelectNew s.store s.sel }
  | districtSubmitStep (s : ClientState G) (isEdit : Bool) (d : District G) :
      ClientStep G s { s with store := handleDistrictSubmit s.store isEdit d }
  | parkSubmitStep (s : ClientState G) (isEdit : Bool) (p : Park G) :
      ClientStep G s { s with store := handleParkSubmit s.store isEdit p }
  | facilitySubmitStep (s : ClientState G) (isEdit : Bool) (f : Facility)
      (h : f.parkId ∈ parkIds s.store.parks ∨
        (isEdit = true ∧ ∃ fo ∈ s.store.facilities,
          fo.id = f.id ∧ fo.parkId = f.parkId)) :
      ClientStep G s { s with store := handleFacilitySubmit s.store isEdit f }
  | districtDeleteStep (s : ClientState G) (did : Nat) :
      ClientStep G s { s with store := handleDistrictDelete s.store did }
  | parkDeleteStep (s : ClientState G) (pid : Nat) :
      ClientStep G s { s with store := handleParkDelete s.store pid }
  | facilityDeleteStep (s : ClientState G) (fid : Nat) :
      ClientStep G s { s with store := handleFacilityDelete s.store fid }

/-- Client states reachable from some freshly mounted page. -/
inductive ClientReachable (G : Type) : ClientState G → Prop
  | init (store : Store G) : ClientReachable G (initClient store)
  | step (s t : ClientState G) :
      ClientReachable G s → ClientStep G s t → ClientReachable G t

/-- The invariant behind C9: no facility in the store with a truthy
`parkId` dangling (no park in the store has that id) can have its `parkId`
in the selected-parks set. -/
def DanglingUnselected {G : Type} (s : ClientState G) : Prop :=
  ∀ f ∈ s.store.facilities, f.parkId ≠ 0 →
    f.parkId ∉ parkIds s.store.parks → f.parkId ∉ s.sel.parks

theorem toggleDistrict_parks (id : Nat) (sel : FilterSel) :
    (toggleDistrict id sel).parks = sel.parks := by
  unfold toggleDistrict
  split <;> rfl

theorem toggleFacilityType_parks (t : String) (sel : FilterSel) :
    (toggleFacilityType t sel).parks = sel.parks := by
  unfold toggleFacilityType
  split <;> rfl

theorem togglePark_parks_mem (id k : Nat) (sel : FilterSel)
    (h : k ∈ (togglePark id sel).parks) : k ∈ sel.parks ∨ k = id := by
  unfold togglePark at h
  split at h
  · exact Or.inl (List.mem_filter.mp h).1
  · rcases List.mem_append.mp h with h' | h'
    · exact Or.inl h'
    · simpa using Or.inr (List.mem_singleton.mp h')

theorem selectAllParks_parks_subset {G : Type} (parks : List (Park G))
    (sel : FilterSel) (k : Nat) (h : k ∈ (selectAllParks parks sel).parks) :
    k ∈ parkIds parks := by
  unfold selectAllParks at h
  simp only [List.mem_map, List.mem_filter] at h
  obtain ⟨p, ⟨hp, -⟩, rfl⟩ := h
  exact List.mem_map.mpr ⟨p, hp, rfl⟩

theorem deselectAllParks_parks_subset {G : Type} (parks : List (Park G))
    (sel : FilterSel) (k : Nat) (h : k ∈ (deselectAllParks parks sel).parks) :
    k ∈ parkIds parks := by
  unfold deselectAllParks at h
  simp only [List.mem_map, List.mem_filter] at h
  obtain ⟨p, ⟨hp, -⟩, rfl⟩ := h
  exact List.mem_map.mpr ⟨p, hp, rfl⟩

theorem autoSelectNew_parks_mem {G : Type} (store : Store G)
    (sel : FilterSel) (k : Nat) (h : k ∈ (autoSelectNew store sel).parks) :
    k ∈ sel.parks ∨ k ∈ parkIds store.parks := by
  unfold autoSelectNew at h
  rcases List.mem_append.mp h with h' | h'
  · exact Or.inl h'
  · exact Or.inr (List.mem_filter.mp h').1

theorem parkIds_update {G : Type} (parks : List (Park G)) (p : Park G) :
    parkIds (parks.map (fun x => if x.id == p.id then p else x)) =
      parkIds parks := by
  unfold parkIds
  rw [List.map_map]
  apply List.map_congr_left
  intro x _
  by_cases hx : x.id = p.id
  · simp [hx]
  · simp [hx]

theorem handleDistrictSubmit_facilities {G : Type} (st : Store G)
    (e : Bool) (d : District G) :
    (handleDistrictSubmit st e d).facilities = st.facilities := by
  unfold handleDistrictSubmit
  split <;> rfl

theorem handleDistrictSubmit_parks {G : Type} (st : Store G) (e : Bool)
    (d : District G) : (handleDistrictSubmit st e d).parks = st.parks := by
  unfold handleDistrictSubmit
  split <;> rfl

theorem handleParkSubmit_facilities {G : Type} (st : Store G) (e : Bool)
    (p : Park G) : (handleParkSubmit st e p).facilities = st.facilities := by
  unfold handleParkSubmit
  split <;> rfl

theorem handleParkSubmit_parkIds_mono {G : Type} (st : Store G) (e : Bool)
    (p : Park G) (k : Nat) (h : k ∈ parkIds st.parks) :
    k ∈ parkIds (handleParkSubmit st e p).parks := by
  unfold handleParkSubmit
  split
  · show k ∈ parkIds (st.parks.map (fun x => if x.id == p.id then p else x))
    rw [parkIds_update]
    exact h
  · show k ∈ parkIds (st.parks ++ [p])
    unfold parkIds at h ⊢
    rw [List.map_append]
    exact List.mem_append.mpr (Or.inl h)

theorem handleFacilitySubmit_parks {G : Type} (st : Store G) (e : Bool)
    (f : Facility) : (handleFacilitySubmit st e f).parks = st.parks := by
  unfold handleFacilitySubmit
  split <;> rfl

/-- The invariant holds in every reachable client state: the selected-parks
set only ever receives ids of parks present in the store at the time, and
the park-delete cascade removes the facilities of the deleted park. -/
theorem dangling_invariant {G : Type} (s : ClientState G)
    (hs : ClientReachable G s) : DanglingUnselected s := by
  induction hs with
  | init store =>
      intro f hf hpid hnotP
      simpa [initClient, initFilters, parkIds] using hnotP
  | step s t hsR hstep ih =>
      cases hstep with
      | toggleDistrictStep id =>
          intro f hf hpid hnotP
          rw [toggleDistrict_parks]
          exact ih f hf hpid hnotP
      | toggleParkStep id hid =>
          intro f hf hpid hnotP hmem
          rcases togglePark_parks_mem id f.parkId s.sel hmem with h' | h'
          · exact ih f hf hpid hnotP h'
          · exact hnotP (h' ▸ hid)
      | toggleFacilityTypeStep t =>
          intro f hf hpid hnotP
          rw [toggleFacilityType_parks]
          exact ih f hf hpid hnotP
      | selectAllDistrictsStep =>
          intro f hf hpid hnotP
          exact ih f hf hpid hnotP
      | deselectAllDistrictsStep =>
          intro f hf hpid hnotP
          exact ih f hf hpid hnotP
      | selectAllParksStep =>
          intro f hf hpid hnotP hmem
          exact hnotP
            (selectAllParks_parks_subset s.store.parks s.sel f.parkId hmem)
      | deselectAllParksStep =>
          intro f hf hpid hnotP hmem
          exact hnotP
            (deselectAllParks_parks_subset s.store.parks s.sel f.parkId hmem)
      | selectAllFacilityTypesStep =>
          intro f hf hpid hnotP
          exact ih f hf hpid hnotP
      | deselectAllFacilityTypesStep =>
          intro f hf hpid hnotP
          exact ih f hf hpid hnotP
      | autoSelectStep =>
          intro f hf hpid hnotP hmem
          rcases autoSelectNew_parks_mem s.store s.sel f.parkId hmem with h' | h'
          · exact ih f hf hpid hnotP h'
          · exact hnotP h'
      | districtSubmitStep isEdit d =>
          intro f hf hpid hnotP
          rw [handleDistrictSubmit_facilities] at hf
          rw [handleDistrictSubmit_parks] at hnotP
          exact ih f hf hpid hnotP
      | parkSubmitStep isEdit p =>
          intro f hf hpid hnotP
          rw [handleParkSubmit_facilities] at hf
          refine ih f hf hpid (fun hmem => hnotP ?_)
          exact handleParkSubmit_parkIds_mono s.store isEdit p f.parkId hmem
      | facilitySubmitStep isEdit f0 hguard =>
          intro f hf hpid hnotP
          rw [handleFacilitySubmit_parks] at hnotP
          unfold handleFacilitySubmit at hf
          split at hf
          · rcases List.mem_map.mp hf with ⟨x, hx, hgx⟩
            by_cases hxid : x.id = f0.id
            · have hff0 : f = f0 := by
                rw [← hgx]
                simp [hxid]
              subst hff0
              rcases hguard with hin | ⟨-, fo, hfo, -, hfopid⟩
              · exact absurd hin hnotP
              · have hfo' : fo.parkId ∉ s.sel.parks :=
                  ih fo hfo (by rw [hfopid]; exact hpid)
                    (by rw [hfopid]; exact hnotP)
                intro hmem
                exact hfo' (by rw [hfopid]; exact hmem)
            · have hfx : f = x := by
                rw [← hgx]
                simp [hxid]
              intro hmem
              exact ih x hx (by rw [← hfx]; exact hpid)
                (by rw [← hfx]; exact hnotP) (by rw [← hfx]; exact hmem)
          · rename_i hnotEdit
            rcases List.mem_append.mp hf with hf' | hf'
            · exact ih f hf' hpid hnotP
            · obtain rfl := List.mem_singleton.mp hf'
              rcases hguard with hin | ⟨hcontra, -⟩
              · exact absurd hin hnotP
              · exact absurd hcontra hnotEdit
      | districtDeleteStep did =>
          intro f hf hpid hnotP
          exact ih f hf hpid hnotP
      | parkDeleteStep pid =>
          intro f hf hpid hnotP
          unfold handleParkDelete at hf hnotP
          simp only [List.mem_filter] at hf
          obtain ⟨hf', hne⟩ := hf
          refine ih f hf' hpid (fun hmem => hnotP ?_)
          unfold parkIds at hmem ⊢
          rcases List.mem_map.mp hmem with ⟨p, hp, hpe⟩
          refine List.mem_map.mpr ⟨p, List.mem_filter.mpr ⟨hp, ?_⟩, hpe⟩
          rw [hpe]
          simpa using hne
      | facilityDeleteStep fid =>
          intro f hf hpid hnotP
          unfold handleFacilityDelete at hf
          exact ih f (List.mem_filter.mp hf).1 hpid hnotP

/-- C9: in every reachable client state, a facility whose non-zero
`parkId` matches no park in the entity store is never rendered by
`loadFacilities`, whatever the facility-type (and other) selections: the
selected-parks set is fed only from ids of parks present in the store, so
it cannot contain the dangling id, and the park-id guard skips the
facility. -/
theorem dangling_facility_never_rendered {G : Type} (s : ClientState G)
    (hs : ClientReachable G s) (f : Facility) (hf : f ∈ s.store.facilities)
    (hpid : f.parkId ≠ 0)
    (hdangling : ∀ p ∈ s.store.parks, p.id ≠ f.parkId) :
    facilityRendered s.store.parks s.sel f = false := by
  have hnotP : f.parkId ∉ parkIds s.store.parks := by
    intro hmem
    rcases List.mem_map.mp hmem with ⟨p, hp, hpe⟩
    exact hdangling p hp hpe
  have hnotS : f.parkId ∉ s.sel.parks :=
    dangling_invariant s hs f hf hpid hnotP
  have hpidb : (f.parkId != 0) = true := by simp [hpid]
  unfold facilityRendered
  simp [hpidb, hnotS]

/-- Witness for C9: a freshly mounted page whose facilities fetch returned
a facility pointing at park 7 while the parks fetch returned nothing; the
facility is not rendered. -/
theorem dangling_facility_never_rendered_witness :
    facilityRendered
      (initClient (⟨[], [], [⟨1, "NTO", 7, none⟩]⟩ : Store Unit)).store.parks
      (initClient (⟨[], [], [⟨1, "NTO", 7, none⟩]⟩ : Store Unit)).sel
      ⟨1, "NTO", 7, none⟩ = false :=
  dangling_facility_never_rendered
    (initClient (⟨[], [], [⟨1, "NTO", 7, none⟩]⟩ : Store Unit))
    (ClientReachable.init _) ⟨1, "NTO", 7, none⟩ (by decide) (by decide)
    (by decide)

end SaoParks
